import Mathlib

/-!
Verification of the rock-paper-scissors particle simulation engine
(src/src/simulation.tsx).

Numbers are modelled by the rationals.  The only transcendental
operation in the source is Math.sqrt, which appears in three places:

* in handleCollision, as dist = Math.sqrt (nx*nx + ny*ny).  Here the
  square root is modelled by an extra parameter `dist`, and the
  theorems carry the hypotheses `0 <= dist` and
  `dist * dist = nx*nx + ny*ny`, which characterise the exact value of
  the square root.
* in the collision scan of updatePositions, where only the comparison
  Math.sqrt s < OBJECT_RADIUS * 2 is needed.  Since both sides are
  nonnegative this is equivalent to s < (OBJECT_RADIUS * 2)^2, and the
  embedding uses the squared comparison.
* in the speed-rescale handler, modelled the same way as in
  handleCollision, with a finite/non-finite number model because that
  code path divides by zero in JavaScript.
-/

inductive ObjectType where
  | rock : ObjectType
  | paper : ObjectType
  | scissors : ObjectType
deriving DecidableEq, Repr

/-- A simulated particle: type tag, position (x, y), velocity (dx, dy).
Mirrors the SimObject interface of the source. -/
structure SimObject where
  type : ObjectType
  x : ℚ
  y : ℚ
  dx : ℚ
  dy : ℚ
deriving DecidableEq, Repr

def CANVAS_WIDTH : ℚ := 1200

def CANVAS_HEIGHT : ℚ := 800

def OBJECT_RADIUS : ℚ := 5

/-- The beats relation of handleCollision: rock -> scissors,
paper -> rock, scissors -> paper (each type maps to the type it
defeats). -/
def beats : ObjectType → ObjectType
  | ObjectType.rock => ObjectType.scissors
  | ObjectType.paper => ObjectType.rock
  | ObjectType.scissors => ObjectType.paper

/-- Transliteration of handleCollision (simulation.tsx lines 51-93).
The parameter `dist` stands for the value of
Math.sqrt (nx*nx + ny*ny); theorems about this function carry the
hypotheses 0 <= dist and dist * dist = nx*nx + ny*ny that pin it to
the true square root.  The source mutates obj1 and obj2 in place; the
embedding returns the updated pair. -/
def handleCollision (dist : ℚ) (obj1 obj2 : SimObject) : SimObject × SimObject :=
  let nx := obj2.x - obj1.x
  let ny := obj2.y - obj1.y
  let unx := nx / dist
  let uny := ny / dist
  let utx := -uny
  let uty := unx
  let v1n := obj1.dx * unx + obj1.dy * uny
  let v1t := obj1.dx * utx + obj1.dy * uty
  let v2n := obj2.dx * unx + obj2.dy * uny
  let v2t := obj2.dx * utx + obj2.dy * uty
  let v1nAfter := v2n
  let v2nAfter := v1n
  let new1dx := v1nAfter * unx + v1t * utx
  let new1dy := v1nAfter * uny + v1t * uty
  let new2dx := v2nAfter * unx + v2t * utx
  let new2dy := v2nAfter * uny + v2t * uty
  let newTypes : ObjectType × ObjectType :=
    if beats obj1.type = obj2.type then (obj1.type, obj1.type)
    else if beats obj2.type = obj1.type then (obj2.type, obj2.type)
    else (obj1.type, obj2.type)
  ({ obj1 with dx := new1dx, dy := new1dy, type := newTypes.1 },
   { obj2 with dx := new2dx, dy := new2dy, type := newTypes.2 })

lemma handleCollision_fst_type (d : ℚ) (o1 o2 : SimObject) :
    (handleCollision d o1 o2).1.type =
      if beats o1.type = o2.type then o1.type
      else if beats o2.type = o1.type then o2.type
      else o1.type := by
  unfold handleCollision
  dsimp only
  split
  · rfl
  · split
    · rfl
    · rfl

lemma handleCollision_snd_type (d : ℚ) (o1 o2 : SimObject) :
    (handleCollision d o1 o2).2.type =
      if beats o1.type = o2.type then o1.type
      else if beats o2.type = o1.type then o2.type
      else o2.type := by
  unfold handleCollision
  dsimp only
  split
  · rfl
  · split
    · rfl
    · rfl

/-- C1: handleCollision resolves types from the pre-collision types:
if beats obj1.type = obj2.type then obj2 converts to obj1.type (obj1
keeps its type); else if beats obj2.type = obj1.type then obj1
converts to obj2.type (obj2 keeps its type); otherwise neither type
changes.  Consequently for unequal types exactly one particle
converts, the changed particle and the unchanged one both end with the
winner's pre-collision type, and for equal types no conversion
occurs. -/
theorem handleCollision_type_rule (d : ℚ) (o1 o2 : SimObject) :
    (beats o1.type = o2.type →
      (handleCollision d o1 o2).1.type = o1.type ∧
      (handleCollision d o1 o2).2.type = o1.type) ∧
    (beats o1.type ≠ o2.type → beats o2.type = o1.type →
      (handleCollision d o1 o2).1.type = o2.type ∧
      (handleCollision d o1 o2).2.type = o2.type) ∧
    (beats o1.type ≠ o2.type → beats o2.type ≠ o1.type →
      (handleCollision d o1 o2).1.type = o1.type ∧
      (handleCollision d o1 o2).2.type = o2.type) ∧
    (o1.type ≠ o2.type →
      Xor' ((handleCollision d o1 o2).1.type ≠ o1.type)
           ((handleCollision d o1 o2).2.type ≠ o2.type) ∧
      (handleCollision d o1 o2).1.type =
        (if beats o1.type = o2.type then o1.type else o2.type) ∧
      (handleCollision d o1 o2).2.type =
        (if beats o1.type = o2.type then o1.type else o2.type)) ∧
    (o1.type = o2.type →
      (handleCollision d o1 o2).1.type = o1.type ∧
      (handleCollision d o1 o2).2.type = o2.type) := by
  rw [handleCollision_fst_type, handleCollision_snd_type]
  rcases o1 with ⟨t1, x1, y1, dx1, dy1⟩
  rcases o2 with ⟨t2, x2, y2, dx2, dy2⟩
  dsimp only
  cases t1 <;> cases t2 <;> simp [beats, Xor']

/-- Witness for C1 at a concrete rock vs scissors pair: the scissors
particle converts to rock and the rock particle keeps its type. -/
theorem handleCollision_type_rule_witness :
    (handleCollision 2 (SimObject.mk ObjectType.rock 10 50 1 0)
        (SimObject.mk ObjectType.scissors 12 50 (-1) 0)).1.type = ObjectType.rock ∧
    (handleCollision 2 (SimObject.mk ObjectType.rock 10 50 1 0)
        (SimObject.mk ObjectType.scissors 12 50 (-1) 0)).2.type = ObjectType.rock :=
  (handleCollision_type_rule 2 (SimObject.mk ObjectType.rock 10 50 1 0)
    (SimObject.mk ObjectType.scissors 12 50 (-1) 0)).1 (by decide)

/-- C10: handleCollision leaves both positions unchanged; it only
rewrites the velocity fields and possibly the type fields of its two
arguments (the function reads and writes nothing but the pair it is
given, as its type shows). -/
theorem handleCollision_preserves_positions (d : ℚ) (o1 o2 : SimObject) :
    (handleCollision d o1 o2).1.x = o1.x ∧
    (handleCollision d o1 o2).1.y = o1.y ∧
    (handleCollision d o1 o2).2.x = o2.x ∧
    (handleCollision d o1 o2).2.y = o2.y := by
  refine ⟨rfl, rfl, rfl, rfl⟩

/-- C5 evaluation at the failing input: two particles with exactly
coincident centers (so dist = Math.sqrt 0 = 0).  The source has no
degenerate-collision guard: the type rule still runs (the scissors
particle converts to rock) and the velocities are overwritten by the
result of dividing by the zero-length normal (NaN components in
JavaScript; in this rational model the division-by-zero convention
yields 0), instead of the pair being skipped unchanged. -/
theorem handleCollision_degenerate_not_skipped :
    (handleCollision 0 (SimObject.mk ObjectType.rock 100 100 1 0)
        (SimObject.mk ObjectType.scissors 100 100 0 0)).2.type = ObjectType.rock ∧
    (SimObject.mk ObjectType.scissors 100 100 0 0).type ≠ ObjectType.rock ∧
    (handleCollision 0 (SimObject.mk ObjectType.rock 100 100 1 0)
        (SimObject.mk ObjectType.scissors 100 100 0 0)).1.dx ≠
      (SimObject.mk ObjectType.rock 100 100 1 0).dx := by
  refine ⟨rfl, by decide, ?_⟩
  norm_num [handleCollision]

/-- Scalar component of the velocity (vx, vy) along the unit contact
normal used by handleCollision (lines 58-59 and 66-69 of the source),
with `dist` standing for the square root of the squared center
distance. -/
def normalComp (dist : ℚ) (o1 o2 : SimObject) (vx vy : ℚ) : ℚ :=
  vx * ((o2.x - o1.x) / dist) + vy * ((o2.y - o1.y) / dist)

/-- Scalar component of the velocity (vx, vy) along the unit tangent
used by handleCollision (lines 62-63 and 66-69 of the source). -/
def tangComp (dist : ℚ) (o1 o2 : SimObject) (vx vy : ℚ) : ℚ :=
  vx * (-((o2.y - o1.y) / dist)) + vy * ((o2.x - o1.x) / dist)

/-- C2: for non-coincident centers, handleCollision exchanges the two
scalar velocity components along the unit contact normal and leaves
both tangential components unchanged. -/
theorem handleCollision_exchanges_normal_components
    (dist : ℚ) (o1 o2 : SimObject)
    (hpos : 0 ≤ dist)
    (hsq : dist * dist =
      (o2.x - o1.x) * (o2.x - o1.x) + (o2.y - o1.y) * (o2.y - o1.y))
    (hne : ¬ (o2.x = o1.x ∧ o2.y = o1.y)) :
    normalComp dist o1 o2 (handleCollision dist o1 o2).1.dx
        (handleCollision dist o1 o2).1.dy =
      normalComp dist o1 o2 o2.dx o2.dy ∧
    normalComp dist o1 o2 (handleCollision dist o1 o2).2.dx
        (handleCollision dist o1 o2).2.dy =
      normalComp dist o1 o2 o1.dx o1.dy ∧
    tangComp dist o1 o2 (handleCollision dist o1 o2).1.dx
        (handleCollision dist o1 o2).1.dy =
      tangComp dist o1 o2 o1.dx o1.dy ∧
    tangComp dist o1 o2 (handleCollision dist o1 o2).2.dx
        (handleCollision dist o1 o2).2.dy =
      tangComp dist o1 o2 o2.dx o2.dy := by
  have hdist : dist ≠ 0 := by
    intro h0
    rw [h0, zero_mul] at hsq
    have hx2 : (o2.x - o1.x) * (o2.x - o1.x) = 0 := by
      nlinarith [mul_self_nonneg (o2.x - o1.x), mul_self_nonneg (o2.y - o1.y)]
    have hy2 : (o2.y - o1.y) * (o2.y - o1.y) = 0 := by
      nlinarith [mul_self_nonneg (o2.x - o1.x), mul_self_nonneg (o2.y - o1.y)]
    have hx : o2.x - o1.x = 0 := mul_self_eq_zero.mp hx2
    have hy : o2.y - o1.y = 0 := mul_self_eq_zero.mp hy2
    exact hne ⟨by linarith, by linarith⟩
  have hu : ((o2.x - o1.x) / dist) * ((o2.x - o1.x) / dist) +
      ((o2.y - o1.y) / dist) * ((o2.y - o1.y) / dist) = 1 := by
    field_simp
    linarith
  simp only [handleCollision, normalComp, tangComp]
  set u := (o2.x - o1.x) / dist with hu1
  set w := (o2.y - o1.y) / dist with hw1
  refine ⟨?_, ?_, ?_, ?_⟩
  · linear_combination (o2.dx * u + o2.dy * w) * hu
  · linear_combination (o1.dx * u + o1.dy * w) * hu
  · linear_combination (-(o1.dx * w) + o1.dy * u) * hu
  · linear_combination (-(o2.dx * w) + o2.dy * u) * hu

/-- Witness for C2: the head-on scenario of the spec, rock at (10,50)
with velocity (1,0) against scissors at (12,50) with velocity (-1,0),
dist = 2; the normal and tangential component equations hold and the
velocities are exactly swapped. -/
theorem handleCollision_exchanges_normal_components_witness :
    (normalComp 2 (SimObject.mk ObjectType.rock 10 50 1 0)
        (SimObject.mk ObjectType.scissors 12 50 (-1) 0)
        (handleCollision 2 (SimObject.mk ObjectType.rock 10 50 1 0)
          (SimObject.mk ObjectType.scissors 12 50 (-1) 0)).1.dx
        (handleCollision 2 (SimObject.mk ObjectType.rock 10 50 1 0)
          (SimObject.mk ObjectType.scissors 12 50 (-1) 0)).1.dy =
      normalComp 2 (SimObject.mk ObjectType.rock 10 50 1 0)
        (SimObject.mk ObjectType.scissors 12 50 (-1) 0) (-1) 0 ∧
    normalComp 2 (SimObject.mk ObjectType.rock 10 50 1 0)
        (SimObject.mk ObjectType.scissors 12 50 (-1) 0)
        (handleCollision 2 (SimObject.mk ObjectType.rock 10 50 1 0)
          (SimObject.mk ObjectType.scissors 12 50 (-1) 0)).2.dx
        (handleCollision 2 (SimObject.mk ObjectType.rock 10 50 1 0)
          (SimObject.mk ObjectType.scissors 12 50 (-1) 0)).2.dy =
      normalComp 2 (SimObject.mk ObjectType.rock 10 50 1 0)
        (SimObject.mk ObjectType.scissors 12 50 (-1) 0) 1 0 ∧
    tangComp 2 (SimObject.mk ObjectType.rock 10 50 1 0)
        (SimObject.mk ObjectType.scissors 12 50 (-1) 0)
        (handleCollision 2 (SimObject.mk ObjectType.rock 10 50 1 0)
          (SimObject.mk ObjectType.scissors 12 50 (-1) 0)).1.dx
        (handleCollision 2 (SimObject.mk ObjectType.rock 10 50 1 0)
          (SimObject.mk ObjectType.scissors 12 50 (-1) 0)).1.dy =
      tangComp 2 (SimObject.mk ObjectType.rock 10 50 1 0)
        (SimObject.mk ObjectType.scissors 12 50 (-1) 0) 1 0 ∧
    tangComp 2 (SimObject.mk ObjectType.rock 10 50 1 0)
        (SimObject.mk ObjectType.scissors 12 50 (-1) 0)
        (handleCollision 2 (SimObject.mk ObjectType.rock 10 50 1 0)
          (SimObject.mk ObjectType.scissors 12 50 (-1) 0)).2.dx
        (handleCollision 2 (SimObject.mk ObjectType.rock 10 50 1 0)
          (SimObject.mk ObjectType.scissors 12 50 (-1) 0)).2.dy =
      tangComp 2 (SimObject.mk ObjectType.rock 10 50 1 0)
        (SimObject.mk ObjectType.scissors 12 50 (-1) 0) (-1) 0) ∧
    (handleCollision 2 (SimObject.mk ObjectType.rock 10 50 1 0)
        (SimObject.mk ObjectType.scissors 12 50 (-1) 0)).1.dx = -1 ∧
    (handleCollision 2 (SimObject.mk ObjectType.rock 10 50 1 0)
        (SimObject.mk ObjectType.scissors 12 50 (-1) 0)).1.dy = 0 ∧
    (handleCollision 2 (SimObject.mk ObjectType.rock 10 50 1 0)
        (SimObject.mk ObjectType.scissors 12 50 (-1) 0)).2.dx = 1 ∧
    (handleCollision 2 (SimObject.mk ObjectType.rock 10 50 1 0)
        (SimObject.mk ObjectType.scissors 12 50 (-1) 0)).2.dy = 0 :=
  ⟨handleCollision_exchanges_normal_components 2
      (SimObject.mk ObjectType.rock 10 50 1 0)
      (SimObject.mk ObjectType.scissors 12 50 (-1) 0)
      (by norm_num) (by norm_num) (by norm_num),
   by norm_num [handleCollision]⟩

/-- C3: for non-coincident centers, handleCollision conserves the sum
of the squared speeds of the two particles. -/
theorem handleCollision_conserves_speed_sq
    (dist : ℚ) (o1 o2 : SimObject)
    (hpos : 0 ≤ dist)
    (hsq : dist * dist =
      (o2.x - o1.x) * (o2.x - o1.x) + (o2.y - o1.y) * (o2.y - o1.y))
    (hne : ¬ (o2.x = o1.x ∧ o2.y = o1.y)) :
    (handleCollision dist o1 o2).1.dx ^ 2 + (handleCollision dist o1 o2).1.dy ^ 2 +
      (handleCollision dist o1 o2).2.dx ^ 2 + (handleCollision dist o1 o2).2.dy ^ 2 =
    o1.dx ^ 2 + o1.dy ^ 2 + o2.dx ^ 2 + o2.dy ^ 2 := by
  have hdist : dist ≠ 0 := by
    intro h0
    rw [h0, zero_mul] at hsq
    have hx2 : (o2.x - o1.x) * (o2.x - o1.x) = 0 := by
      nlinarith [mul_self_nonneg (o2.x - o1.x), mul_self_nonneg (o2.y - o1.y)]
    have hy2 : (o2.y - o1.y) * (o2.y - o1.y) = 0 := by
      nlinarith [mul_self_nonneg (o2.x - o1.x), mul_self_nonneg (o2.y - o1.y)]
    have hx : o2.x - o1.x = 0 := mul_self_eq_zero.mp hx2
    have hy : o2.y - o1.y = 0 := mul_self_eq_zero.mp hy2
    exact hne ⟨by linarith, by linarith⟩
  have hu : ((o2.x - o1.x) / dist) * ((o2.x - o1.x) / dist) +
      ((o2.y - o1.y) / dist) * ((o2.y - o1.y) / dist) = 1 := by
    field_simp
    linarith
  simp only [handleCollision]
  set u := (o2.x - o1.x) / dist with hu1
  set w := (o2.y - o1.y) / dist with hw1
  linear_combination ((u * u + w * w + 1) *
    (o1.dx ^ 2 + o1.dy ^ 2 + o2.dx ^ 2 + o2.dy ^ 2)) * hu

/-- Witness for C3 at the concrete head-on scenario: the sum of
squared speeds is 2 before and after. -/
theorem handleCollision_conserves_speed_sq_witness :
    (handleCollision 2 (SimObject.mk ObjectType.rock 10 50 1 0)
        (SimObject.mk ObjectType.scissors 12 50 (-1) 0)).1.dx ^ 2 +
    (handleCollision 2 (SimObject.mk ObjectType.rock 10 50 1 0)
        (SimObject.mk ObjectType.scissors 12 50 (-1) 0)).1.dy ^ 2 +
    (handleCollision 2 (SimObject.mk ObjectType.rock 10 50 1 0)
        (SimObject.mk ObjectType.scissors 12 50 (-1) 0)).2.dx ^ 2 +
    (handleCollision 2 (SimObject.mk ObjectType.rock 10 50 1 0)
        (SimObject.mk ObjectType.scissors 12 50 (-1) 0)).2.dy ^ 2 =
    (1 : ℚ) ^ 2 + 0 ^ 2 + (-1 : ℚ) ^ 2 + 0 ^ 2 :=
  handleCollision_conserves_speed_sq 2
    (SimObject.mk ObjectType.rock 10 50 1 0)
    (SimObject.mk ObjectType.scissors 12 50 (-1) 0)
    (by norm_num) (by norm_num) (by norm_num)

/-- handleCollision with the normalization carried out through the
squared center distance nsq = nx*nx + ny*ny.  The post-collision
velocities of the source involve the unit normal only through
products of two of its components, and
unx*unx = nx*nx/nsq, unx*uny = nx*ny/nsq, uny*uny = ny*ny/nsq hold
exactly when dist is the true square root of nsq, so this form needs
no square root; handleCollision_sq_eq proves it pointwise equal to
handleCollision at the true square root.  It is used to embed the
collision calls inside updatePositions. -/
def handleCollisionSq (obj1 obj2 : SimObject) : SimObject × SimObject :=
  let nx := obj2.x - obj1.x
  let ny := obj2.y - obj1.y
  let nsq := nx * nx + ny * ny
  let uxx := nx * nx / nsq
  let uxy := nx * ny / nsq
  let uyy := ny * ny / nsq
  let new1dx := obj2.dx * uxx + obj2.dy * uxy + obj1.dx * uyy - obj1.dy * uxy
  let new1dy := obj2.dx * uxy + obj2.dy * uyy - obj1.dx * uxy + obj1.dy * uxx
  let new2dx := obj1.dx * uxx + obj1.dy * uxy + obj2.dx * uyy - obj2.dy * uxy
  let new2dy := obj1.dx * uxy + obj1.dy * uyy - obj2.dx * uxy + obj2.dy * uxx
  let newTypes : ObjectType × ObjectType :=
    if beats obj1.type = obj2.type then (obj1.type, obj1.type)
    else if beats obj2.type = obj1.type then (obj2.type, obj2.type)
    else (obj1.type, obj2.type)
  ({ obj1 with dx := new1dx, dy := new1dy, type := newTypes.1 },
   { obj2 with dx := new2dx, dy := new2dy, type := newTypes.2 })

lemma handleCollision_sq_eq (dist : ℚ) (o1 o2 : SimObject)
    (hsq : dist * dist =
      (o2.x - o1.x) * (o2.x - o1.x) + (o2.y - o1.y) * (o2.y - o1.y)) :
    handleCollision dist o1 o2 = handleCollisionSq o1 o2 := by
  rcases o1 with ⟨t1, x1, y1, vx1, vy1⟩
  rcases o2 with ⟨t2, x2, y2, vx2, vy2⟩
  dsimp only at hsq
  by_cases h0 : dist = 0
  · subst h0
    rw [zero_mul] at hsq
    have hx : x2 - x1 = 0 := mul_self_eq_zero.mp (by
      nlinarith [mul_self_nonneg (x2 - x1), mul_self_nonneg (y2 - y1)])
    have hy : y2 - y1 = 0 := mul_self_eq_zero.mp (by
      nlinarith [mul_self_nonneg (x2 - x1), mul_self_nonneg (y2 - y1)])
    simp [handleCollision, handleCollisionSq, hx, hy]
  · simp only [handleCollision, handleCollisionSq]
    rw [← hsq]
    simp only [Prod.mk.injEq, SimObject.mk.injEq]
    refine ⟨⟨trivial, trivial, trivial, ?_, ?_⟩, trivial, trivial, trivial, ?_, ?_⟩ <;>
      field_simp <;> ring

/-- The per-particle integration and wall-reflection step of
updatePositions (simulation.tsx lines 100-110): the position advances
by the velocity, then each velocity component is negated when the
moved coordinate is at or beyond the corresponding wall. -/
def moveBounce (obj : SimObject) : SimObject :=
  let newx := obj.x + obj.dx
  let newy := obj.y + obj.dy
  let newdx :=
    if newx ≤ OBJECT_RADIUS ∨ CANVAS_WIDTH - OBJECT_RADIUS ≤ newx
    then obj.dx * (-1) else obj.dx
  let newdy :=
    if newy ≤ OBJECT_RADIUS ∨ CANVAS_HEIGHT - OBJECT_RADIUS ≤ newy
    then obj.dy * (-1) else obj.dy
  { obj with x := newx, y := newy, dx := newdx, dy := newdy }

def defaultObj : SimObject := SimObject.mk ObjectType.rock 0 0 0 0

/-- One inner-loop iteration of the collision scan (lines 113-123)
for outer index i and inner index j: skipped when j = i (the source
compares object references, and distinct list positions hold distinct
objects); otherwise, if the squared center distance is below
(OBJECT_RADIUS * 2)^2 (equivalently, its square root is below
OBJECT_RADIUS * 2), the collision is resolved and the invocation
(i, j) is appended to the trace. -/
def scanInner (i : ℕ) (acc : List SimObject × List (ℕ × ℕ)) (j : ℕ) :
    List SimObject × List (ℕ × ℕ) :=
  if j = i then acc
  else
    let a := acc.1.getD i defaultObj
    let b := acc.1.getD j defaultObj
    let ddx := b.x - a.x
    let ddy := b.y - a.y
    if ddx * ddx + ddy * ddy < (OBJECT_RADIUS * 2) * (OBJECT_RADIUS * 2) then
      ((acc.1.set i (handleCollisionSq a b).1).set j (handleCollisionSq a b).2,
        acc.2 ++ [(i, j)])
    else acc

/-- One outer-loop iteration of updatePositions for index i: move and
wall-reflect particle i in place, then scan every index j of the
(current) list with scanInner. -/
def scanOuter (acc : List SimObject × List (ℕ × ℕ)) (i : ℕ) :
    List SimObject × List (ℕ × ℕ) :=
  let moved := acc.1.set i (moveBounce (acc.1.getD i defaultObj))
  (List.range moved.length).foldl (scanInner i) (moved, acc.2)

/-- One tick of updatePositions (simulation.tsx lines 100-124),
instrumented to also return the list of (outer, inner) index pairs on
which handleCollision was invoked, in invocation order.  The first
component is the updated particle list (the drawing code of lines
126-147 does not touch particle state and is omitted). -/
def updatePositionsT (objs : List SimObject) : List SimObject × List (ℕ × ℕ) :=
  (List.range objs.length).foldl scanOuter (objs, [])

/-- One tick of updatePositions: the particle list after integration,
wall reflection and the pairwise collision scan. -/
def updatePositions (objs : List SimObject) : List SimObject :=
  (updatePositionsT objs).1

/-- C4 counterexample: a single particle at x = 1193 (inside the
bounds [5, 1195]) with velocity (4, 0) ends the tick at x = 1197 with
its x-velocity reflected; 1197 is outside [radius, width - radius],
so the position is not within the arena bounds immediately after the
tick. -/
theorem tick_position_can_exceed_bounds :
    updatePositions [SimObject.mk ObjectType.rock 1193 100 4 0] =
      [SimObject.mk ObjectType.rock 1197 100 (-4) 0] ∧
    ¬ ((SimObject.mk ObjectType.rock 1197 100 (-4) 0).x ≤
        CANVAS_WIDTH - OBJECT_RADIUS) := by
  constructor
  · norm_num [updatePositions, updatePositionsT, scanOuter, scanInner, moveBounce,
      CANVAS_WIDTH, CANVAS_HEIGHT, OBJECT_RADIUS, defaultObj,
      List.range_succ]
  · norm_num [CANVAS_WIDTH, OBJECT_RADIUS]

/-- C4 (amended): the integration-and-reflection step of the tick
does not clamp: the post-move position is exactly position plus
velocity, so a particle that starts the tick within
[radius, width-radius] x [radius, height-radius] is guaranteed only
to end it within those bounds widened by the magnitude of the
velocity component used on each axis, and can exceed the exact bounds
by up to one step.  (Collision resolution never changes positions, so
this covers the whole tick for the moved particle.) -/
theorem moveBounce_widened_bounds (o : SimObject)
    (hx1 : OBJECT_RADIUS ≤ o.x) (hx2 : o.x ≤ CANVAS_WIDTH - OBJECT_RADIUS)
    (hy1 : OBJECT_RADIUS ≤ o.y) (hy2 : o.y ≤ CANVAS_HEIGHT - OBJECT_RADIUS) :
    (moveBounce o).x = o.x + o.dx ∧
    (moveBounce o).y = o.y + o.dy ∧
    OBJECT_RADIUS - |o.dx| ≤ (moveBounce o).x ∧
    (moveBounce o).x ≤ CANVAS_WIDTH - OBJECT_RADIUS + |o.dx| ∧
    OBJECT_RADIUS - |o.dy| ≤ (moveBounce o).y ∧
    (moveBounce o).y ≤ CANVAS_HEIGHT - OBJECT_RADIUS + |o.dy| := by
  have h1 : -|o.dx| ≤ o.dx := neg_abs_le o.dx
  have h2 : o.dx ≤ |o.dx| := le_abs_self o.dx
  have h3 : -|o.dy| ≤ o.dy := neg_abs_le o.dy
  have h4 : o.dy ≤ |o.dy| := le_abs_self o.dy
  refine ⟨rfl, rfl, ?_, ?_, ?_, ?_⟩
  · show OBJECT_RADIUS - |o.dx| ≤ o.x + o.dx
    linarith
  · show o.x + o.dx ≤ CANVAS_WIDTH - OBJECT_RADIUS + |o.dx|
    linarith
  · show OBJECT_RADIUS - |o.dy| ≤ o.y + o.dy
    linarith
  · show o.y + o.dy ≤ CANVAS_HEIGHT - OBJECT_RADIUS + |o.dy|
    linarith

/-- Witness for the amended C4 at the counterexample particle: it
starts within bounds and ends the move at x = 1193 + 4 = 1197, inside
the widened interval [5 - 4, 1195 + 4]. -/
theorem moveBounce_widened_bounds_witness :
    (moveBounce (SimObject.mk ObjectType.rock 1193 100 4 0)).x = 1193 + 4 ∧
    (moveBounce (SimObject.mk ObjectType.rock 1193 100 4 0)).y = 100 + 0 ∧
    OBJECT_RADIUS - |(4 : ℚ)| ≤ (moveBounce (SimObject.mk ObjectType.rock 1193 100 4 0)).x ∧
    (moveBounce (SimObject.mk ObjectType.rock 1193 100 4 0)).x ≤
      CANVAS_WIDTH - OBJECT_RADIUS + |(4 : ℚ)| ∧
    OBJECT_RADIUS - |(0 : ℚ)| ≤ (moveBounce (SimObject.mk ObjectType.rock 1193 100 4 0)).y ∧
    (moveBounce (SimObject.mk ObjectType.rock 1193 100 4 0)).y ≤
      CANVAS_HEIGHT - OBJECT_RADIUS + |(0 : ℚ)| :=
  moveBounce_widened_bounds (SimObject.mk ObjectType.rock 1193 100 4 0)
    (by norm_num [OBJECT_RADIUS]) (by norm_num [CANVAS_WIDTH, OBJECT_RADIUS])
    (by norm_num [OBJECT_RADIUS]) (by norm_num [CANVAS_HEIGHT, OBJECT_RADIUS])

lemma moveBounce_stationary (o : SimObject) (h1 : o.dx = 0) (h2 : o.dy = 0) :
    moveBounce o = o := by
  rcases o with ⟨t, x, y, dx, dy⟩
  dsimp only at h1 h2
  subst h1
  subst h2
  simp [moveBounce]

lemma handleCollisionSq_stationary (a b : SimObject)
    (ha1 : a.dx = 0) (ha2 : a.dy = 0) (hb1 : b.dx = 0) (hb2 : b.dy = 0) :
    (handleCollisionSq a b).1.dx = 0 ∧ (handleCollisionSq a b).1.dy = 0 ∧
    (handleCollisionSq a b).2.dx = 0 ∧ (handleCollisionSq a b).2.dy = 0 := by
  simp [handleCollisionSq, ha1, ha2, hb1, hb2]

lemma scanInner_skip_self (i : ℕ) (acc : List SimObject × List (ℕ × ℕ)) :
    scanInner i acc i = acc := by
  simp [scanInner]

lemma scanInner_hit (i j : ℕ) (objs : List SimObject) (tr : List (ℕ × ℕ))
    (hne : j ≠ i)
    (hcond : ((objs.getD j defaultObj).x - (objs.getD i defaultObj).x) *
        ((objs.getD j defaultObj).x - (objs.getD i defaultObj).x) +
        ((objs.getD j defaultObj).y - (objs.getD i defaultObj).y) *
        ((objs.getD j defaultObj).y - (objs.getD i defaultObj).y) <
        (OBJECT_RADIUS * 2) * (OBJECT_RADIUS * 2)) :
    scanInner i (objs, tr) j =
      ((objs.set i
          (handleCollisionSq (objs.getD i defaultObj) (objs.getD j defaultObj)).1).set j
          (handleCollisionSq (objs.getD i defaultObj) (objs.getD j defaultObj)).2,
        tr ++ [(i, j)]) := by
  simp only [scanInner]
  rw [if_neg hne, if_pos hcond]

/-- Trace of a tick on a two-particle stationary overlapping
configuration: the resolver is invoked twice on the single unordered
pair, once in each order, with no memory of the pair having been
resolved already. -/
lemma tick_stationary_pair_trace (a b : SimObject)
    (ha1 : a.dx = 0) (ha2 : a.dy = 0) (hb1 : b.dx = 0) (hb2 : b.dy = 0)
    (hover : (b.x - a.x) * (b.x - a.x) + (b.y - a.y) * (b.y - a.y) <
      (OBJECT_RADIUS * 2) * (OBJECT_RADIUS * 2)) :
    (updatePositionsT [a, b]).2 = [(0, 1), (1, 0)] := by
  have hma : moveBounce a = a := moveBounce_stationary a ha1 ha2
  have hvz := handleCollisionSq_stationary a b ha1 ha2 hb1 hb2
  have hmc2 : moveBounce (handleCollisionSq a b).2 = (handleCollisionSq a b).2 :=
    moveBounce_stationary _ hvz.2.2.1 hvz.2.2.2
  have h1 : (handleCollisionSq a b).1.x = a.x := rfl
  have h2 : (handleCollisionSq a b).2.x = b.x := rfl
  have h3 : (handleCollisionSq a b).1.y = a.y := rfl
  have h4 : (handleCollisionSq a b).2.y = b.y := rfl
  have hover2 : ((handleCollisionSq a b).1.x - (handleCollisionSq a b).2.x) *
      ((handleCollisionSq a b).1.x - (handleCollisionSq a b).2.x) +
      ((handleCollisionSq a b).1.y - (handleCollisionSq a b).2.y) *
      ((handleCollisionSq a b).1.y - (handleCollisionSq a b).2.y) <
      (OBJECT_RADIUS * 2) * (OBJECT_RADIUS * 2) := by
    have e1 : (a.x - b.x) * (a.x - b.x) = (b.x - a.x) * (b.x - a.x) := by ring
    have e2 : (a.y - b.y) * (a.y - b.y) = (b.y - a.y) * (b.y - a.y) := by ring
    rw [h1, h2, h3, h4, e1, e2]
    exact hover
  have s1 : scanOuter ([a, b], ([] : List (ℕ × ℕ))) 0 =
      ([(handleCollisionSq a b).1, (handleCollisionSq a b).2], [(0, 1)]) := by
    have e1 : scanOuter ([a, b], ([] : List (ℕ × ℕ))) 0 =
        List.foldl (scanInner 0) ([moveBounce a, b], []) [0, 1] := rfl
    rw [e1, hma]
    rw [show List.foldl (scanInner 0) ([a, b], ([] : List (ℕ × ℕ))) [0, 1] =
        scanInner 0 (scanInner 0 ([a, b], []) 0) 1 from rfl]
    rw [scanInner_skip_self]
    rw [scanInner_hit 0 1 [a, b] [] (by decide) hover]
    rfl
  rw [show updatePositionsT [a, b] = scanOuter (scanOuter ([a, b], []) 0) 1 from rfl]
  rw [s1]
  rw [show scanOuter
        (([(handleCollisionSq a b).1, (handleCollisionSq a b).2], [(0, 1)])) 1 =
      List.foldl (scanInner 1)
        ([(handleCollisionSq a b).1, moveBounce (handleCollisionSq a b).2], [(0, 1)])
        [0, 1] from rfl]
  rw [hmc2]
  rw [show List.foldl (scanInner 1)
        ([(handleCollisionSq a b).1, (handleCollisionSq a b).2], [(0, 1)]) [0, 1] =
      scanInner 1
        (scanInner 1 ([(handleCollisionSq a b).1, (handleCollisionSq a b).2], [(0, 1)]) 0)
        1 from rfl]
  rw [scanInner_hit 1 0 [(handleCollisionSq a b).1, (handleCollisionSq a b).2]
    [(0, 1)] (by decide) hover2]
  rw [scanInner_skip_self]
  rfl

/-- C9 counterexample: two stationary overlapping particles (distance
3 < 2 * radius).  During one tick the Collision Resolver is invoked
twice on this single unordered pair, once as (0,1) and once as (1,0):
the scan has no memory of a pair having been resolved earlier in the
same tick, so the pair is not resolved exactly once. -/
theorem tick_pair_resolved_twice :
    (updatePositionsT [SimObject.mk ObjectType.rock 100 100 0 0,
        SimObject.mk ObjectType.scissors 103 100 0 0]).2 = [(0, 1), (1, 0)] ∧
    ((updatePositionsT [SimObject.mk ObjectType.rock 100 100 0 0,
        SimObject.mk ObjectType.scissors 103 100 0 0]).2.countP
      (fun p => decide (p = (0, 1) ∨ p = (1, 0)))) ≠ 1 := by
  have h := tick_stationary_pair_trace
    (SimObject.mk ObjectType.rock 100 100 0 0)
    (SimObject.mk ObjectType.scissors 103 100 0 0)
    rfl rfl rfl rfl (by norm_num [OBJECT_RADIUS])
  refine ⟨h, ?_⟩
  rw [h]
  decide

/-- C9 (amended): the collision scan checks ordered pairs in
particle-list order, with no memory of already-resolved pairs: for any
two-particle stationary configuration within contact distance, one
tick invokes the Collision Resolver twice on the single unordered
pair, first as (0,1) while scanning for particle 0, then again as
(1,0) while scanning for particle 1. -/
theorem tick_no_resolved_pair_memory (a b : SimObject)
    (ha1 : a.dx = 0) (ha2 : a.dy = 0) (hb1 : b.dx = 0) (hb2 : b.dy = 0)
    (hover : (b.x - a.x) * (b.x - a.x) + (b.y - a.y) * (b.y - a.y) <
      (OBJECT_RADIUS * 2) * (OBJECT_RADIUS * 2)) :
    (updatePositionsT [a, b]).2 = [(0, 1), (1, 0)] :=
  tick_stationary_pair_trace a b ha1 ha2 hb1 hb2 hover

/-- Witness for the amended C9 at a concrete stationary pair at
distance 5. -/
theorem tick_no_resolved_pair_memory_witness :
    (updatePositionsT [SimObject.mk ObjectType.paper 200 300 0 0,
        SimObject.mk ObjectType.rock 204 303 0 0]).2 = [(0, 1), (1, 0)] :=
  tick_no_resolved_pair_memory
    (SimObject.mk ObjectType.paper 200 300 0 0)
    (SimObject.mk ObjectType.rock 204 303 0 0)
    rfl rfl rfl rfl (by norm_num [OBJECT_RADIUS])

/-- Finite-value model of JavaScript numbers for the speed-rescale
handler: some q is the finite value q, none is a non-finite value
(NaN or an infinity).  jsMul: the product of two finite values is
their exact product; any product involving a non-finite value is
non-finite (0 * Infinity is NaN).  Overflow of finite products is not
modelled. -/
def jsMul : Option ℚ → Option ℚ → Option ℚ
  | some a, some b => some (a * b)
  | _, _ => none

/-- jsDiv: the quotient of a finite value by a nonzero finite value is
exact; a finite value divided by finite zero is an infinity or NaN,
hence non-finite.  (Division by a non-finite value, which JavaScript
can take to 0, is mapped to none; the rescale handler only ever
divides by a finite square root, so that case is unused.) -/
def jsDiv : Option ℚ → Option ℚ → Option ℚ
  | some a, some b => if b = 0 then none else some (a / b)
  | _, _ => none

/-- The per-particle body of the setSpeed onChange handlers
(simulation.tsx lines 254-259 and 275-280): cs models
Math.sqrt (dx*dx + dy*dy), the current speed of the particle; the
handler computes scale = newSpeed / cs and multiplies both velocity
components by it, with no guard for cs = 0.  The result is the pair
of new velocity components in the finite-value model. -/
def rescaleVelocity (newSpeed cs : ℚ) (obj : SimObject) : Option ℚ × Option ℚ :=
  let scale := jsDiv (some newSpeed) (some cs)
  (jsMul (some obj.dx) scale, jsMul (some obj.dy) scale)

/-- C6 evaluation at the failing input: a particle with velocity
(0, 0) has current speed Math.sqrt 0 = 0; setSpeed(5) while running
computes scale = 5 / 0 and multiplies both components by it, so both
become non-finite (0 * Infinity = NaN in JavaScript) instead of
staying (0, 0): the source has no zero-speed guard.  The last
conjunct records the healthy path for contrast: at current speed 5, a
particle with velocity (3, 4) is left at exactly (3, 4) by
setSpeed(5). -/
theorem rescale_zero_velocity_not_guarded :
    rescaleVelocity 5 0 (SimObject.mk ObjectType.rock 1 1 0 0) = (none, none) ∧
    (none : Option ℚ) ≠ some 0 ∧
    rescaleVelocity 5 5 (SimObject.mk ObjectType.rock 1 1 3 4) =
      (some 3, some 4) := by
  refine ⟨?_, by simp, ?_⟩
  · norm_num [rescaleVelocity, jsMul, jsDiv]
  · norm_num [rescaleVelocity, jsMul, jsDiv]

/-- Population targets of the component (the counts state). -/
structure Counts where
  rock : ℕ
  paper : ℕ
  scissors : ℕ
deriving DecidableEq, Repr

/-- Engine-relevant component state: the isRunning flag, the
population targets, the speed, and the live particle list
(objectsRef). -/
structure AppState where
  isRunning : Bool
  counts : Counts
  speed : ℚ
  objects : List SimObject

def initialCounts : Counts := Counts.mk 10 10 10

def initialSpeed : ℚ := 5 / 2

/-- handleStop (simulation.tsx lines 157-162): stops stepping;
cancelling the pending animation frame has no engine-state
counterpart. -/
def handleStop (s : AppState) : AppState := { s with isRunning := false }

/-- handleReset (simulation.tsx lines 164-170): calls handleStop and
clears the canvas.  The canvas is draw-only state outside the engine,
so the engine-state effect is exactly that of handleStop: nothing
else is touched. -/
def handleReset (s : AppState) : AppState := handleStop s

/-- C8 counterexample: from a running state with one particle, speed
7 and counts (3, 4, 5), handleReset leaves the particle list
non-empty and leaves the speed and the population targets at their
non-default values: it does not clear particles and does not restore
configuration defaults. -/
theorem handleReset_does_not_clear :
    (handleReset (AppState.mk true (Counts.mk 3 4 5) 7 [defaultObj])).objects ≠ [] ∧
    (handleReset (AppState.mk true (Counts.mk 3 4 5) 7 [defaultObj])).speed ≠ initialSpeed ∧
    (handleReset (AppState.mk true (Counts.mk 3 4 5) 7 [defaultObj])).counts ≠ initialCounts := by
  refine ⟨by simp [handleReset, handleStop], ?_, by decide⟩
  norm_num [handleReset, handleStop, initialSpeed]

/-- C8 (amended): handleReset is valid from any state and stops
stepping (isRunning becomes false); beyond clearing the canvas
drawing it changes nothing: the particle set, the population targets
and the speed are left unchanged, and the component accumulates no
population history to clear. -/
theorem handleReset_stops_and_changes_nothing_else (s : AppState) :
    (handleReset s).isRunning = false ∧
    (handleReset s).objects = s.objects ∧
    (handleReset s).counts = s.counts ∧
    (handleReset s).speed = s.speed :=
  ⟨rfl, rfl, rfl, rfl⟩

/-- createObject (simulation.tsx lines 33-39): rx, ry, rdx, rdy model
the four Math.random() draws (each in [0, 1)); the created particle
has the requested type. -/
def createObject (speed : ℚ) (t : ObjectType) (rx ry rdx rdy : ℚ) : SimObject :=
  { type := t
  , x := rx * (CANVAS_WIDTH - 2 * OBJECT_RADIUS) + OBJECT_RADIUS
  , y := ry * (CANVAS_HEIGHT - 2 * OBJECT_RADIUS) + OBJECT_RADIUS
  , dx := (rdx - 1 / 2) * speed
  , dy := (rdy - 1 / 2) * speed }

/-- The removal loop of updateObjectCount (simulation.tsx lines
183-192), with the remaining removal count as fuel.  Each iteration
re-filters the current objects of the type, picks the random index
r k modulo the current length (Math.floor (random * len) is always in
[0, len) when len > 0), finds that object in the main list and
removes it; when the filtered list is empty the source computes
indexOf undefined = -1 and removes nothing, which is the none
branch. -/
def removeRandom (t : ObjectType) (r : ℕ → ℕ) : ℕ → List SimObject → List SimObject
  | 0, objs => objs
  | k + 1, objs =>
    let typeObjects := objs.filter (fun o => o.type == t)
    let idx := r k % typeObjects.length
    match typeObjects.get? idx with
    | none => removeRandom t r k objs
    | some o => removeRandom t r k (objs.erase o)

/-- updateObjectCount (simulation.tsx lines 172-194): when the
requested count exceeds the current count of the type, append freshly
created particles of that type (g supplies the random draws of each
createObject call); when it is below, run the removal loop; otherwise
leave the list alone. -/
def updateObjectCount (speed : ℚ) (t : ObjectType) (newCount : ℕ)
    (g : ℕ → ℚ × ℚ × ℚ × ℚ) (r : ℕ → ℕ) (objs : List SimObject) : List SimObject :=
  let currentTypeCount := (objs.filter (fun o => o.type == t)).length
  if currentTypeCount < newCount then
    objs ++ (List.range (newCount - currentTypeCount)).map (fun i =>
      createObject speed t (g i).1 (g i).2.1 (g i).2.2.1 (g i).2.2.2)
  else if newCount < currentTypeCount then
    removeRandom t r (currentTypeCount - newCount) objs
  else objs

lemma filter_erase_of_type (t : ObjectType) (o : SimObject) (objs : List SimObject)
    (hmem : o ∈ objs) (hot : o.type = t) :
    ((objs.erase o).filter (fun x => x.type == t)).length + 1 =
      ((objs.filter (fun x => x.type == t)).length) ∧
    (objs.erase o).filter (fun x => !(x.type == t)) =
      objs.filter (fun x => !(x.type == t)) := by
  obtain ⟨l1, l2, hnot, hsplit, herase⟩ := List.exists_erase_eq hmem
  rw [herase, hsplit]
  constructor
  · simp only [List.filter_append, List.filter_cons, hot, List.length_append]
    simp [hot]
    omega
  · simp [List.filter_append, List.filter_cons, hot]

lemma removeRandom_spec (t : ObjectType) (r : ℕ → ℕ) :
    ∀ (k : ℕ) (objs : List SimObject),
      k ≤ (objs.filter (fun o => o.type == t)).length →
      ((removeRandom t r k objs).filter (fun o => o.type == t)).length =
        (objs.filter (fun o => o.type == t)).length - k ∧
      (removeRandom t r k objs).filter (fun o => !(o.type == t)) =
        objs.filter (fun o => !(o.type == t)) := by
  intro k
  induction k with
  | zero =>
    intro objs _
    simp [removeRandom]
  | succ k ih =>
    intro objs hk
    have hlen : 0 < (objs.filter (fun o => o.type == t)).length := by omega
    have hidx : r k % (objs.filter (fun o => o.type == t)).length <
        (objs.filter (fun o => o.type == t)).length := Nat.mod_lt _ hlen
    obtain ⟨o, hget⟩ : ∃ o, (objs.filter (fun o => o.type == t)).get?
        (r k % (objs.filter (fun o => o.type == t)).length) = some o := by
      rw [List.get?_eq_get hidx]
      exact ⟨_, rfl⟩
    have homem : o ∈ objs.filter (fun o => o.type == t) := List.get?_mem hget
    have hpair := List.mem_filter.mp homem
    have hot : o.type = t := by simpa using hpair.2
    have hoin : o ∈ objs := hpair.1
    have hred : removeRandom t r (k + 1) objs = removeRandom t r k (objs.erase o) := by
      simp only [removeRandom]
      rw [hget]
    have hera := filter_erase_of_type t o objs hoin hot
    have hk2 : k ≤ ((objs.erase o).filter (fun x => x.type == t)).length := by omega
    have hrec := ih (objs.erase o) hk2
    rw [hred]
    constructor
    · rw [hrec.1]
      omega
    · rw [hrec.2, hera.2]

/-- C7: after updateObjectCount(type, n) the particle list contains
exactly n particles of that type, and the sublist of particles of all
other types is unchanged: every such particle still exists with its
original position and velocity, in the original relative order
(additions append at the end; removals erase only particles of the
resized type). -/
theorem updateObjectCount_spec (speed : ℚ) (t : ObjectType) (n : ℕ)
    (g : ℕ → ℚ × ℚ × ℚ × ℚ) (r : ℕ → ℕ) (objs : List SimObject) :
    ((updateObjectCount speed t n g r objs).filter (fun o => o.type == t)).length = n ∧
    (updateObjectCount speed t n g r objs).filter (fun o => !(o.type == t)) =
      objs.filter (fun o => !(o.type == t)) := by
  by_cases h1 : (objs.filter (fun o => o.type == t)).length < n
  · have hred : updateObjectCount speed t n g r objs =
        objs ++ (List.range (n - (objs.filter (fun o => o.type == t)).length)).map
          (fun i => createObject speed t (g i).1 (g i).2.1 (g i).2.2.1 (g i).2.2.2) := by
      simp only [updateObjectCount]
      rw [if_pos h1]
    rw [hred]
    set L := (List.range (n - (objs.filter (fun o => o.type == t)).length)).map
      (fun i => createObject speed t (g i).1 (g i).2.1 (g i).2.2.1 (g i).2.2.2) with hL
    have hall : ∀ o ∈ L, o.type = t := by
      intro o ho
      rw [hL] at ho
      obtain ⟨i, _, rfl⟩ := List.mem_map.mp ho
      rfl
    have hflt : L.filter (fun o => o.type == t) = L :=
      List.filter_eq_self.mpr (by intro a ha; simpa using hall a ha)
    have hflf : L.filter (fun o => !(o.type == t)) = [] :=
      List.filter_eq_nil_iff.mpr (by intro a ha; simp [hall a ha])
    constructor
    · rw [List.filter_append, List.length_append, hflt, hL,
        List.length_map, List.length_range]
      omega
    · rw [List.filter_append, hflf, List.append_nil]
  · by_cases h2 : n < (objs.filter (fun o => o.type == t)).length
    · have hred : updateObjectCount speed t n g r objs =
          removeRandom t r ((objs.filter (fun o => o.type == t)).length - n) objs := by
        simp only [updateObjectCount]
        rw [if_neg h1, if_pos h2]
      rw [hred]
      have hspec := removeRandom_spec t r
        ((objs.filter (fun o => o.type == t)).length - n) objs (by omega)
      refine ⟨?_, hspec.2⟩
      rw [hspec.1]
      omega
    · have hred : updateObjectCount speed t n g r objs = objs := by
        simp only [updateObjectCount]
        rw [if_neg h1, if_neg h2]
      rw [hred]
      exact ⟨by omega, rfl⟩
